import Mathlib

/-!
Verification of the oscana data transformation and provenance pipeline.

Shallow embedding of the core of the repository:
  src/oscana/data/data_handler.py  (DataHandler, apply_transforms)
  src/oscana/data/io_base.py       (_get_non_cache_files, DataIOStrategy.from_*)
  src/oscana/data/plugins/pandas_io.py (hlp_20250205_from_sntp and friends)
  src/oscana/data/t_metadata.py    (TransformMetadata)
  src/oscana/data/f_metadata.py    (FileMetadata)
  src/oscana/data/transform.py     (TransformBase)
  src/oscana/data/enumerations.py  (the enum types carried by FileMetadata)

Tables (pandas DataFrames) are modelled as lists of rows over an abstract row
type; `pd.concat` of row-indexed frames is list append.  Python `datetime`
values are modelled as integers (epoch seconds), Python floats occurring only
in equality comparisons (the reco version number) as rationals.  Raising code
is modelled with `Except` / an explicit error component.
-/

namespace Oscana

/- ------------------------------------------------------------------ -/
/- Python string primitives used by the source:
   `str.split(sep)` with a one-character separator, `sep.join(xs)` and
   `str.lower()` (the source only lowercases ASCII identifiers).        -/
/- ------------------------------------------------------------------ -/

/-- ASCII lowercasing of one character, as Python's `str.lower` acts on the
ASCII identifiers appearing in transform class names. -/
def lowerChar (c : Char) : Char :=
  if 'A' ≤ c ∧ c ≤ 'Z' then Char.ofNat (c.toNat + 32) else c

/-- Split a character list at every occurrence of `sep`, keeping empty
segments — the behaviour of Python's `str.split(sep)` with an explicit
one-character separator (so `"".split("_") == [""]`). -/
def splitChars (sep : Char) : List Char → List (List Char)
  | [] => [[]]
  | c :: cs =>
    let r := splitChars sep cs
    if c = sep then [] :: r
    else
      match r with
      | [] => [[c]]
      | h :: t => (c :: h) :: t

/-- Python `s.split(sep)` for a one-character separator. -/
def pySplit (sep : Char) (s : String) : List String :=
  (splitChars sep s.toList).map fun cs => String.mk cs

/-- Python `sep.join(xs)`. -/
def pyJoin (sep : String) : List String → String
  | [] => ""
  | [x] => x
  | x :: xs => x ++ sep ++ pyJoin sep xs

/-- Python `s.lower()` (ASCII). -/
def pyLower (s : String) : String :=
  String.mk (s.toList.map lowerChar)

/- ------------------------------------------------------------------ -/
/- enumerations.py: the enum types stored in FileMetadata.  Python enum
   members compare equal iff they are the same member, so each enum is an
   inductive type with one constructor per member.                      -/
/- ------------------------------------------------------------------ -/

/-- enumerations.py `EFileFormat`. -/
inductive EFileFormat
  | ROOT
  | HDF5
  | UNKNOWN
deriving DecidableEq

/-- enumerations.py `EFileType`. -/
inductive EFileType
  | DATA
  | MONTE_CARLO
  | UNKNOWN
deriving DecidableEq

/-- enumerations.py `EExperiment`. -/
inductive EExperiment
  | MINOS
  | MINOS_PLUS
  | NOVA
  | UNKNOWN
deriving DecidableEq

/-- enumerations.py `EDetector`. -/
inductive EDetector
  | CALIBRATION
  | NEAR
  | FAR
  | UNKNOWN
deriving DecidableEq

/-- enumerations.py `EMCVersion`. -/
inductive EMCVersion
  | AVOCADO
  | BEET
  | CARROT
  | DAIKON
  | UNKNOWN
deriving DecidableEq

/-- enumerations.py `ERecoVersion`. -/
inductive ERecoVersion
  | ASH
  | BIRCH
  | CEDAR
  | DOGWOOD
  | UNKNOWN
deriving DecidableEq

/-- enumerations.py `EHornPosition`. -/
inductive EHornPosition
  | LOW_ENERGY
  | HIGH_ENERGY
  | MEDIUM_ENERGY
  | UNKNOWN
deriving DecidableEq

/-- enumerations.py `EHornCurrent`. -/
inductive EHornCurrent
  | FORWARD
  | REVERSE
  | UNKNOWN
deriving DecidableEq

/-- enumerations.py `EDaikonIntRegion`. -/
inductive EDaikonIntRegion
  | ATMOSPHERE
  | DETECTOR
  | ROCK
  | DETECTOR_ROCK
  | DETECTOR_FIDUCIAL
  | SMALL_FIDUCIAL
  | UNKNOWN
deriving DecidableEq

/-- enumerations.py `EDaikonFlavour`. -/
inductive EDaikonFlavour
  | UNOSCILLATED
  | NU_E
  | NU_TAU
  | INVERTED_BEAM
  | FAR_OSCILLATED_MOCK
  | UNKNOWN
deriving DecidableEq

/-- enumerations.py `EDaikonMagField`. -/
inductive EDaikonMagField
  | OFF
  | NORMAL
  | REVERSED
  | NEW_NORMAL
  | NEW_REVERSED
  | UNKNOWN
deriving DecidableEq

/- ------------------------------------------------------------------ -/
/- f_metadata.py: FileMetadata                                          -/
/- ------------------------------------------------------------------ -/

/-- f_metadata.py `FileMetadata`: frozen dataclass describing one source
file.  `datetime` fields are modelled as epoch seconds (`Int`); the float
component of `reco_version` is modelled as `Rat` (it is only ever compared
for equality). -/
structure FileMetadata where
  file_name : String
  file_format : EFileFormat
  file_type : EFileType
  experiment : EExperiment
  detector : EDetector
  interaction : EDaikonIntRegion
  flavour : EDaikonFlavour
  mag_field : EDaikonMagField
  horn_pos : EHornPosition
  tgt_z_shift : Int
  current_sign : EHornCurrent
  current : Int
  run_number : Int
  mc_version : EMCVersion × Int
  reco_version : ERecoVersion × Rat
  start_time : Int
  end_time : Int
  n_records : Int
  create_time : Int
deriving DecidableEq

/-- f_metadata.py `FileMetadata.__eq__` (lines 371-399): the compatibility
check used when merging files.  It compares exactly the fields listed there;
the `interaction` comparison is commented out in the source ("Allow different
interaction regions in the same file."), and `file_name`, `file_format`,
`start_time`, `end_time`, `n_records` and `create_time` are never compared. -/
def fmEq (a b : FileMetadata) : Bool :=
  decide (a.file_type = b.file_type)
    && decide (a.experiment = b.experiment)
    && decide (a.detector = b.detector)
    && decide (a.flavour = b.flavour)
    && decide (a.mag_field = b.mag_field)
    && decide (a.horn_pos = b.horn_pos)
    && decide (a.tgt_z_shift = b.tgt_z_shift)
    && decide (a.current_sign = b.current_sign)
    && decide (a.current = b.current)
    && decide (a.run_number = b.run_number)
    && decide (a.mc_version.1 = b.mc_version.1)
    && decide (a.mc_version.2 = b.mc_version.2)
    && decide (a.reco_version.1 = b.reco_version.1)
    && decide (a.reco_version.2 = b.reco_version.2)

/-- f_metadata.py `FileMetadata.__ne__`: `not self.__eq__(value)`. -/
def fmNe (a b : FileMetadata) : Bool :=
  !fmEq a b

/-- Modelled from the spec: the spec's own notion of compatibility, "every
field except the interaction-region tag matches" (spec section 3).  Stated
from the spec's words for comparison with the source's `fmEq`; it compares
every `FileMetadata` attribute other than `interaction`. -/
def fmCompatibleSpec (a b : FileMetadata) : Bool :=
  decide (a.file_name = b.file_name)
    && decide (a.file_format = b.file_format)
    && decide (a.file_type = b.file_type)
    && decide (a.experiment = b.experiment)
    && decide (a.detector = b.detector)
    && decide (a.flavour = b.flavour)
    && decide (a.mag_field = b.mag_field)
    && decide (a.horn_pos = b.horn_pos)
    && decide (a.tgt_z_shift = b.tgt_z_shift)
    && decide (a.current_sign = b.current_sign)
    && decide (a.current = b.current)
    && decide (a.run_number = b.run_number)
    && decide (a.mc_version = b.mc_version)
    && decide (a.reco_version = b.reco_version)
    && decide (a.start_time = b.start_time)
    && decide (a.end_time = b.end_time)
    && decide (a.n_records = b.n_records)
    && decide (a.create_time = b.create_time)

/- ------------------------------------------------------------------ -/
/- t_metadata.py: TransformMetadata (the provenance ledger)             -/
/- ------------------------------------------------------------------ -/

/-- The keyword-argument bundle captured by a transform
(`TransformBase._kwargs`, a Python `dict[str, Any]`), modelled as an
association list of printable values. -/
abbrev Params := List (String × String)

/-- t_metadata.py `TransformMetadata`: the append-only ledger.  Each entry
is a `(class name, captured kwargs)` pair, exactly what `_add_transform`
appends. -/
structure TransformMetadata where
  transforms : List (String × Params)
deriving DecidableEq

/-- t_metadata.py `TransformMetadata._extract_transform_name`:
`"_".join(name.split("_")[2:]).lower()`. -/
def extractTransformName (name : String) : String :=
  pyLower (pyJoin "_" ((pySplit '_' name).drop 2))

/-- The extracted transform names recorded in a ledger, in order. -/
def tmNames (tm : TransformMetadata) : List String :=
  tm.transforms.map fun data => extractTransformName data.1

/-- Python `set(xs) == set(ys)` over strings: mutual membership. -/
def listSetEq (xs ys : List String) : Bool :=
  xs.all (fun x => ys.contains x) && ys.all (fun y => xs.contains y)

/-- t_metadata.py `TransformMetadata.__eq__` (lines 173-211): builds the set
of extracted transform names on each side and compares the two sets. -/
def tmEq (a b : TransformMetadata) : Bool :=
  listSetEq (tmNames a) (tmNames b)

/- ------------------------------------------------------------------ -/
/- transform.py / data_handler.py: transforms and the Data Handler      -/
/- ------------------------------------------------------------------ -/

/-- transform.py `TransformBase`: a named, parameterized transform.  Its
`__call__` receives the handler and returns the new `(data, cuts)` tables
or raises; per the source contract it is a pure function of the handler's
current tables and its captured kwargs, so `run` takes the two tables.
`name` stands for `transform.__class__.__name__` and `kwargs` for
`transform._kwargs`. -/
structure Transform (T : Type) where
  name : String
  kwargs : Params
  run : T → T → Except String (T × T)

/-- data_handler.py `DataHandler`: its `__slots__` state.  The table type
`T` is the generic parameter of the Python class; `cache` is the ingested
file cache `DataIOStrategy._cache` of the strategy instance the handler
owns. -/
structure DataHandler (T : Type) where
  vars : List String
  has_cuts_table : Bool
  t_metadata : TransformMetadata
  f_metadata : List FileMetadata
  data_table : T
  cuts_table : T
  cache : List String
deriving DecidableEq

/-- data_handler.py: the plugin registry built at module load time by
`import_plugins`.  The `plugins` directory holds a single module,
`pandas_io.py`, whose export list is `["PandasIO"]`, so the registry maps
exactly the name "PandasIO". -/
def pluginRegistry : List String :=
  ["PandasIO"]

/-- data_handler.py `DataHandler.__init__` (lines 60-104): looks the
strategy name up in the plugin registry and raises when absent; otherwise
stores the variable list as given and builds empty data/cuts tables via
the strategy's initializer hooks (`PandasIO._init_data_table` and
`_init_cuts_table` both return an empty DataFrame, i.e. `[]`).  The
strategy's `__init__` sets `_cache = []`. -/
def DataHandler.init (ρ : Type) (vars : List String) ( data_io : String)
    (make_cut_bool_table : Bool) : Except String (DataHandler (List ρ)) :=
  if pluginRegistry.contains data_io then
    Except.ok
      { vars := vars
        has_cuts_table := make_cut_bool_table
        t_metadata := ⟨[]⟩
        f_metadata := []
        data_table := []
        cuts_table := []
        cache := [] }
  else
    Except.error ("Data IO strategy '" ++ data_io ++ "' not found in the plugins.")

/-- data_handler.py `apply_transforms`, body of one loop iteration (lines
117-133): try the transform on the current tables; on success replace both
tables and append `(class name, kwargs)` to the ledger
(`TransformMetadata._add_transform`); on an exception leave the handler
untouched and report the failure (the `except` branch warns and counts). -/
def applyTransformStep {T : Type} (dh : DataHandler T) (t : Transform T) :
    DataHandler T × Option String :=
  match t.run dh.data_table dh.cuts_table with
  | Except.ok (d, c) =>
    ({ dh with
        data_table := d
        cuts_table := c
        t_metadata := ⟨dh.t_metadata.transforms ++ [(t.name, t.kwargs)]⟩ }, none)
  | Except.error e => (dh, some e)

/-- Outcome of the `apply_transforms` loop: final handler state, the
`n_errors` counter and the warning diagnostics surfaced for the failed
steps, in order (only their count and order are modelled, each entry
carrying the underlying error text). -/
structure ApplyResult (T : Type) where
  handler : DataHandler T
  nErrors : Nat
  warnings : List String
deriving DecidableEq

/-- data_handler.py `apply_transforms` loop (lines 115-139): iterate the
transforms in the given order; a failing step is caught, counted and
surfaced as a warning while the loop continues with the unchanged
handler. -/
def applyTransformsRun {T : Type} :
    DataHandler T → List (Transform T) → ApplyResult T
  | dh, [] => ⟨dh, 0, []⟩
  | dh, t :: ts =>
    match applyTransformStep dh t with
    | (dh1, none) => applyTransformsRun dh1 ts
    | (_, some e) =>
      let r := applyTransformsRun dh ts
      ⟨r.handler, r.nErrors + 1, e :: r.warnings⟩

/-- data_handler.py `apply_transforms` (lines 106-147): run the loop over
all transforms, then raise a single aggregate `OscanaError` summarizing the
failure count iff at least one step failed. -/
def apply_transforms {T : Type} (dh : DataHandler T) (ts : List (Transform T)) :
    Except String (DataHandler T) :=
  let r := applyTransformsRun dh ts
  if r.nErrors > 0 then
    Except.error
      ("Failed to apply " ++ toString r.nErrors
        ++ " transforms to the data. (See above warnings.)")
  else
    Except.ok r.handler

/- ------------------------------------------------------------------ -/
/- io_base.py / pandas_io.py: ingestion                                 -/
/- ------------------------------------------------------------------ -/

/-- io_base.py `_get_non_cache_files` (lines 82-112): each file of the call
list is checked against the cache as it stood at call entry (the cache is
only extended after the loop), the survivors are appended to the cache, and
the survivor list is returned.  Result: `(updated cache, non-cache files)`. -/
def _get_non_cache_files (cache : List String) (files : List String) :
    List String × List String :=
  let nonCacheFiles := files.filter fun file => !cache.contains file
  (cache ++ nonCacheFiles, nonCacheFiles)

/-- The Record Source (pandas_io.py `_v1_naive_loader`, an external
collaborator per the spec): given the handler's variable list and one file
identifier, returns that file's rows and its `FileMetadata`, or raises. -/
abbrev RecordSource (ρ : Type) :=
  List String → String → Except String (List ρ × FileMetadata)

/-- Accumulator of the loop in pandas_io.py `hlp_20250205_from_sntp`:
suppressed exceptions, loaded per-file tables, loaded per-file metadata. -/
structure SntpAcc (ρ : Type) where
  exceptions : List String
  data_list : List (List ρ)
  f_metadata_list : List FileMetadata

/-- One iteration of the loop in `hlp_20250205_from_sntp` (lines 127-142):
load the file; compare its metadata with the metadata of the last file
loaded in this same call (`f_metadata_list[-1]`, via `FileMetadata.__ne__`)
and raise inside the `try` on mismatch; any exception is caught and
appended to `exceptions_`, otherwise the rows and metadata are appended. -/
def sntpLoadStep {ρ : Type} (source : RecordSource ρ) (vars : List String)
    (acc : SntpAcc ρ) (file : String) : SntpAcc ρ :=
  match source vars file with
  | Except.error e => { acc with exceptions := acc.exceptions ++ [e] }
  | Except.ok (data, fMeta) =>
    match acc.f_metadata_list.getLast? with
    | some last =>
      if fmNe fMeta last then
        { acc with
            exceptions := acc.exceptions ++ ["All files must have the same metadata!"] }
      else
        { acc with
            data_list := acc.data_list ++ [data]
            f_metadata_list := acc.f_metadata_list ++ [fMeta] }
    | none =>
      { acc with
          data_list := acc.data_list ++ [data]
          f_metadata_list := acc.f_metadata_list ++ [fMeta] }

/-- pandas_io.py `hlp_20250205_from_sntp` (lines 115-159): loop over the
files with `sntpLoadStep`; if any exception was collected, raise the single
aggregate error after the whole batch was attempted, else return the
concatenated rows and the metadata list. -/
def hlp_20250205_from_sntp {ρ : Type} (source : RecordSource ρ)
    (vars : List String) (files : List String) :
    Except String (List ρ × List FileMetadata) :=
  let acc := files.foldl (sntpLoadStep source vars) ⟨[], [], []⟩
  if acc.exceptions.length > 0 then
    Except.error "One or more files failed to load! (See the above exceptions.)"
  else
    Except.ok (acc.data_list.flatten, acc.f_metadata_list)

/-- pandas_io.py `hlp_20250205_from_udst` (lines 162-174): always raises
`NotImplementedError`. -/
def hlp_20250205_from_udst {ρ : Type} (_vars : List String)
    (_files : List String) : Except String (List ρ × List FileMetadata) :=
  Except.error "The uDST loader is not implemented yet!"

/-- pandas_io.py `hlp_20250205_from_hdf5` (lines 177-189): always raises
`NotImplementedError`. -/
def hlp_20250205_from_hdf5 {ρ : Type} (_vars : List String)
    (_files : List String) : Except String (List ρ × List FileMetadata) :=
  Except.error "The HDF5 loader is not implemented yet!"

/-- io_base.py `DataIOStrategy.from_<kind>` combined with pandas_io.py
`PandasIO._from_<kind>` — the shape shared by all three entrypoints:
filter the call list through `_get_non_cache_files` (which extends the
cache first), return silently when nothing new remains, otherwise delegate
to the loader and on success append the new rows to the data table
(`pd.concat`) and the new metadata to the handler's list.  The second
component is the raised error, if any; on a raise the cache keeps its
extension but tables and metadata are untouched. -/
def ingestCall {ρ : Type}
    (loader : List String → List String → Except String (List ρ × List FileMetadata))
    (dh : DataHandler (List ρ)) (files : List String) :
    DataHandler (List ρ) × Option String :=
  let res := _get_non_cache_files dh.cache files
  let dh1 := { dh with cache := res.1 }
  if res.2.isEmpty then
    (dh1, none)
  else
    match loader dh1.vars res.2 with
    | Except.error e => (dh1, some e)
    | Except.ok (data, fMeta) =>
      ({ dh1 with
          data_table := dh1.data_table ++ data
          f_metadata := dh1.f_metadata ++ fMeta }, none)

/-- io_base.py `DataIOStrategy.from_sntp` (lines 170-189) with the PandasIO
SNTP loader. -/
def from_sntp {ρ : Type} (source : RecordSource ρ) (dh : DataHandler (List ρ))
    (files : List String) : DataHandler (List ρ) × Option String :=
  ingestCall (hlp_20250205_from_sntp source) dh files

/-- io_base.py `DataIOStrategy.from_udst` (lines 191-210) with the PandasIO
uDST loader (not implemented). -/
def from_udst {ρ : Type} (dh : DataHandler (List ρ)) (files : List String) :
    DataHandler (List ρ) × Option String :=
  ingestCall hlp_20250205_from_udst dh files

/-- io_base.py `DataIOStrategy.from_hdf5` (lines 212-231) with the PandasIO
HDF5 loader (not implemented). -/
def from_hdf5 {ρ : Type} (dh : DataHandler (List ρ)) (files : List String) :
    DataHandler (List ρ) × Option String :=
  ingestCall hlp_20250205_from_hdf5 dh files

/- ------------------------------------------------------------------ -/
/- Concrete fixtures for the scenario theorems                          -/
/- ------------------------------------------------------------------ -/

/-- A concrete Daikon-style `FileMetadata`, as `from_daikon_sntp` would
produce for a far-detector MC spill file. -/
def fmBase : FileMetadata where
  file_name := "f21001001_0000_L010185N_D04.sntp.dogwood7.root"
  file_format := EFileFormat.ROOT
  file_type := EFileType.MONTE_CARLO
  experiment := EExperiment.MINOS
  detector := EDetector.FAR
  interaction := EDaikonIntRegion.DETECTOR
  flavour := EDaikonFlavour.UNOSCILLATED
  mag_field := EDaikonMagField.NORMAL
  horn_pos := EHornPosition.LOW_ENERGY
  tgt_z_shift := 10
  current_sign := EHornCurrent.FORWARD
  current := 185
  run_number := 1001
  mc_version := (EMCVersion.DAIKON, 4)
  reco_version := (ERecoVersion.DOGWOOD, 7)
  start_time := 1100000000
  end_time := 1100003600
  n_records := 2
  create_time := 1700000000

/-- File metadata with run number 1001. -/
def fm1001 : FileMetadata := fmBase

/-- File metadata identical to `fm1001` except for the run number. -/
def fm1002 : FileMetadata := { fmBase with run_number := 1002 }

/-- A fresh `DataHandler` over `Nat` rows, exactly what
`DataHandler.init Nat ["stp.plane"] "PandasIO" false` returns. -/
def dhFresh : DataHandler (List Nat) where
  vars := ["stp.plane"]
  has_cuts_table := false
  t_metadata := ⟨[]⟩
  f_metadata := []
  data_table := []
  cuts_table := []
  cache := []

/-- A record source holding the two files of the run-number scenario:
"FILE_1001" with rows `[10, 11]` and metadata `fm1001`, and "FILE_1002"
with rows `[20, 21]` and metadata `fm1002`. -/
def srcRun : RecordSource Nat := fun _ file =>
  if file = "FILE_1001" then Except.ok ([10, 11], fm1001)
  else if file = "FILE_1002" then Except.ok ([20, 21], fm1002)
  else Except.error ("Reference to file '" ++ file ++ "' does not exist in the '.env' file.")

/-- A record source holding a single file "FILE_A" with rows `[7, 8]`. -/
def srcDup : RecordSource Nat := fun _ file =>
  if file = "FILE_A" then Except.ok ([7, 8], fmBase)
  else Except.error ("Reference to file '" ++ file ++ "' does not exist in the '.env' file.")

/-- A concrete handler over scalar tables for the transform scenarios. -/
def dhN : DataHandler Nat where
  vars := ["stp.plane"]
  has_cuts_table := false
  t_metadata := ⟨[]⟩
  f_metadata := []
  data_table := 0
  cuts_table := 0
  cache := []

/-- A transform that always succeeds, incrementing the (scalar) table. -/
def tInc : Transform Nat :=
  ⟨"tfm_20250101_inc", [("scale", "1")], fun d c => Except.ok (d + 1, c)⟩

/-- A transform that always raises. -/
def tBad : Transform Nat :=
  ⟨"cut_20250101_bad", [], fun _ _ => Except.error "boom"⟩

/- ------------------------------------------------------------------ -/
/- Helper lemmas (shared by several claim theorems)                     -/
/- ------------------------------------------------------------------ -/

/-- Any ingestion call extends the strategy cache with exactly the
not-yet-cached files of its argument list, whatever the loader does. -/
lemma ingestCall_cache {ρ : Type}
    (loader : List String → List String → Except String (List ρ × List FileMetadata))
    (dh : DataHandler (List ρ)) (files : List String) :
    (ingestCall loader dh files).1.cache
      = dh.cache ++ files.filter fun f => !dh.cache.contains f := by
  simp only [ingestCall, _get_non_cache_files]
  split
  · rfl
  · split
    · rfl
    · rfl

/-- Every file of the argument list is cached after any ingestion call. -/
lemma ingestCall_mem_cache {ρ : Type}
    (loader : List String → List String → Except String (List ρ × List FileMetadata))
    (dh : DataHandler (List ρ)) (files : List String) {f : String} (h : f ∈ files) :
    f ∈ (ingestCall loader dh files).1.cache := by
  rw [ingestCall_cache]
  by_cases hf : f ∈ dh.cache
  · exact List.mem_append_left _ hf
  · refine List.mem_append_right _ (List.mem_filter.2 ⟨h, ?_⟩)
    simp [hf]

/-- An ingestion call whose files are all cached already returns the
handler unchanged and raises nothing (the loader is never consulted). -/
lemma ingestCall_cached_noop {ρ : Type}
    (loader : List String → List String → Except String (List ρ × List FileMetadata))
    (dh : DataHandler (List ρ)) (files : List String)
    (h : ∀ f ∈ files, f ∈ dh.cache) :
    ingestCall loader dh files = (dh, none) := by
  have hfil : List.filter (fun file => !dh.cache.contains file) files = [] := by
    rw [List.filter_eq_nil_iff]
    intro f hf
    simp [h f hf]
  simp only [ingestCall, _get_non_cache_files, hfil, List.append_nil, List.isEmpty_nil]
  rfl

/-- Repeating an ingestion call with the same file list is a silent no-op,
for any loader used by the second call. -/
lemma ingestCall_reingest {ρ : Type}
    (loader loader2 : List String → List String → Except String (List ρ × List FileMetadata))
    (dh : DataHandler (List ρ)) (files : List String) :
    ingestCall loader2 (ingestCall loader dh files).1 files
      = ((ingestCall loader dh files).1, none) :=
  ingestCall_cached_noop _ _ _ fun _ hf => ingestCall_mem_cache loader dh files hf

/-- `listSetEq` is Python set equality: mutual membership. -/
lemma listSetEq_iff_mem (xs ys : List String) :
    listSetEq xs ys = true ↔ ∀ s, s ∈ xs ↔ s ∈ ys := by
  simp only [listSetEq, Bool.and_eq_true, List.all_eq_true]
  constructor
  · rintro ⟨hxy, hyx⟩ s
    constructor
    · intro hs
      simpa using hxy s hs
    · intro hs
      simpa using hyx s hs
  · intro h
    constructor
    · intro s hs
      simpa using (h s).1 hs
    · intro s hs
      simpa using (h s).2 hs

/-- `listSetEq` as `Finset` equality. -/
lemma listSetEq_iff_toFinset (xs ys : List String) :
    listSetEq xs ys = true ↔ xs.toFinset = ys.toFinset := by
  rw [listSetEq_iff_mem, Finset.ext_iff]
  simp [List.mem_toFinset]

/-- `listSetEq` is symmetric. -/
lemma listSetEq_symm (xs ys : List String) :
    listSetEq xs ys = listSetEq ys xs := by
  simp only [listSetEq]
  exact Bool.and_comm _ _

/-- Full behaviour of the `apply_transforms` loop: as many warnings as
failures, at most one outcome per transform, ledger growth accounts for
every attempted transform, the all-success ledger is the input sequence in
order, and the final state is exactly the state reached by applying the
successful sub-sequence of transforms (with no failures). -/
lemma applyRun_spec {T : Type} :
    ∀ (ts : List (Transform T)) (dh : DataHandler T),
      (applyTransformsRun dh ts).warnings.length = (applyTransformsRun dh ts).nErrors
      ∧ (applyTransformsRun dh ts).nErrors ≤ ts.length
      ∧ (applyTransformsRun dh ts).handler.t_metadata.transforms.length
          + (applyTransformsRun dh ts).nErrors
          = dh.t_metadata.transforms.length + ts.length
      ∧ ((applyTransformsRun dh ts).nErrors = 0 →
          (applyTransformsRun dh ts).handler.t_metadata.transforms
            = dh.t_metadata.transforms ++ ts.map fun t => (t.name, t.kwargs))
      ∧ ∃ ss : List (Transform T), ss.Sublist ts
          ∧ ss.length + (applyTransformsRun dh ts).nErrors = ts.length
          ∧ applyTransformsRun dh ss = ⟨(applyTransformsRun dh ts).handler, 0, []⟩
  | [], dh => by
    refine ⟨rfl, Nat.le_refl _, rfl, fun _ => by simp [applyTransformsRun], ?_⟩
    exact ⟨[], List.Sublist.refl _, rfl, rfl⟩
  | t :: ts, dh => by
    cases hr : t.run dh.data_table dh.cuts_table with
    | ok dc =>
      obtain ⟨d, c⟩ := dc
      have hstep : applyTransformStep dh t
          = ({ dh with
                data_table := d
                cuts_table := c
                t_metadata := ⟨dh.t_metadata.transforms ++ [(t.name, t.kwargs)]⟩ }, none) := by
        simp [applyTransformStep, hr]
      have hrun : applyTransformsRun dh (t :: ts)
          = applyTransformsRun
              { dh with
                  data_table := d
                  cuts_table := c
                  t_metadata := ⟨dh.t_metadata.transforms ++ [(t.name, t.kwargs)]⟩ } ts := by
        simp [applyTransformsRun, hstep]
      obtain ⟨ih1, ih2, ih3, ih4, ss, hsub, hlen, hrunss⟩ :=
        applyRun_spec ts
          { dh with
              data_table := d
              cuts_table := c
              t_metadata := ⟨dh.t_metadata.transforms ++ [(t.name, t.kwargs)]⟩ }
      rw [hrun]
      refine ⟨ih1, Nat.le_succ_of_le ih2, ?_, ?_, ?_⟩
      · simp only [List.length_cons]
        simp only [List.length_append, List.length_cons, List.length_nil] at ih3
        omega
      · intro h0
        have := ih4 h0
        simp only [this, List.map_cons, List.append_assoc, List.singleton_append]
      · refine ⟨t :: ss, List.Sublist.cons₂ t hsub, ?_, ?_⟩
        · simp only [List.length_cons]
          omega
        · have : applyTransformsRun dh (t :: ss)
              = applyTransformsRun
                  { dh with
                      data_table := d
                      cuts_table := c
                      t_metadata := ⟨dh.t_metadata.transforms ++ [(t.name, t.kwargs)]⟩ } ss := by
            simp [applyTransformsRun, hstep]
          rw [this, hrunss]
    | error e =>
      have hstep : applyTransformStep dh t = (dh, some e) := by
        simp [applyTransformStep, hr]
      have hrun : applyTransformsRun dh (t :: ts)
          = ⟨(applyTransformsRun dh ts).handler,
             (applyTransformsRun dh ts).nErrors + 1,
             e :: (applyTransformsRun dh ts).warnings⟩ := by
        simp [applyTransformsRun, hstep]
      obtain ⟨ih1, ih2, ih3, ih4, ss, hsub, hlen, hrunss⟩ := applyRun_spec ts dh
      rw [hrun]
      refine ⟨?_, ?_, ?_, ?_, ?_⟩
      · simp [ih1]
      · simpa using Nat.succ_le_succ ih2
      · simp only [List.length_cons]
        omega
      · intro h0
        simp at h0
      · refine ⟨ss, List.Sublist.cons t hsub, ?_, ?_⟩
        · simp only [List.length_cons]
          omega
        · exact hrunss

/- ------------------------------------------------------------------ -/
/- Claim theorems                                                       -/
/- ------------------------------------------------------------------ -/

/-- C1: `apply_transforms` over N transforms of which exactly k raise
attempts all N in order with fail-soft batch semantics: each raising
transform is caught, counted and surfaced as one warning diagnostic (as
many warnings as failures, every transform accounted for by either a
ledger entry or a warning), the final table state is exactly the state
reached by the successful N−k transforms applied in order, a single
aggregate error naming the failure count is raised only after the loop
when k > 0, and when k = 0 no error is raised and the ledger gains
exactly the N entries in the given order. -/
theorem apply_transforms_fail_soft_batch {T : Type} (dh : DataHandler T)
    (ts : List (Transform T)) :
    (applyTransformsRun dh ts).warnings.length = (applyTransformsRun dh ts).nErrors
    ∧ (applyTransformsRun dh ts).nErrors ≤ ts.length
    ∧ (applyTransformsRun dh ts).handler.t_metadata.transforms.length
        + (applyTransformsRun dh ts).nErrors
        = dh.t_metadata.transforms.length + ts.length
    ∧ ((applyTransformsRun dh ts).nErrors = 0 →
        apply_transforms dh ts = Except.ok (applyTransformsRun dh ts).handler
        ∧ (applyTransformsRun dh ts).handler.t_metadata.transforms
            = dh.t_metadata.transforms ++ ts.map fun t => (t.name, t.kwargs))
    ∧ (0 < (applyTransformsRun dh ts).nErrors →
        apply_transforms dh ts
          = Except.error ("Failed to apply "
              ++ toString (applyTransformsRun dh ts).nErrors
              ++ " transforms to the data. (See above warnings.)"))
    ∧ ∃ ss : List (Transform T), ss.Sublist ts
        ∧ ss.length + (applyTransformsRun dh ts).nErrors = ts.length
        ∧ applyTransformsRun dh ss = ⟨(applyTransformsRun dh ts).handler, 0, []⟩ := by
  obtain ⟨h1, h2, h3, h4, hss⟩ := applyRun_spec ts dh
  refine ⟨h1, h2, h3, ?_, ?_, hss⟩
  · intro h0
    refine ⟨?_, h4 h0⟩
    simp [apply_transforms, h0]
  · intro hpos
    simp only [apply_transforms]
    rw [if_pos hpos]

/-- C1 witness: on a concrete batch with one success and one failure the
aggregate error is raised; on the all-success batch the new handler is
returned. -/
theorem apply_transforms_fail_soft_batch_witness :
    apply_transforms dhN [tInc, tBad]
      = Except.error ("Failed to apply "
          ++ toString (applyTransformsRun dhN [tInc, tBad]).nErrors
          ++ " transforms to the data. (See above warnings.)")
    ∧ apply_transforms dhN [tInc] = Except.ok (applyTransformsRun dhN [tInc]).handler :=
  ⟨(apply_transforms_fail_soft_batch dhN [tInc, tBad]).2.2.2.2.1 (by decide),
   ((apply_transforms_fail_soft_batch dhN [tInc]).2.2.2.1 rfl).1⟩

/-- C8: a transform step that raises leaves the handler — data table,
cuts table and ledger — exactly as it was (the table/mask replacement and
the ledger append happen only on success, recording the class name and
captured kwargs), and over a whole batch the ledger records exactly the
entries of a sub-sequence of the attempted transforms (the successful
ones). -/
theorem transform_failure_leaves_state_unchanged {T : Type} (dh : DataHandler T)
    (t : Transform T) (ts : List (Transform T)) :
    (∀ e, t.run dh.data_table dh.cuts_table = Except.error e →
        applyTransformStep dh t = (dh, some e))
    ∧ (∀ d c, t.run dh.data_table dh.cuts_table = Except.ok (d, c) →
        applyTransformStep dh t
          = ({ dh with
                data_table := d
                cuts_table := c
                t_metadata := ⟨dh.t_metadata.transforms ++ [(t.name, t.kwargs)]⟩ }, none))
    ∧ ∃ ss : List (Transform T), ss.Sublist ts
        ∧ (applyTransformsRun dh ts).handler.t_metadata.transforms
            = dh.t_metadata.transforms ++ ss.map fun u => (u.name, u.kwargs) := by
  refine ⟨?_, ?_, ?_⟩
  · intro e he
    simp [applyTransformStep, he]
  · intro d c hdc
    simp [applyTransformStep, hdc]
  · obtain ⟨_, _, _, _, ss, hsub, _, hrunss⟩ := applyRun_spec ts dh
    obtain ⟨_, _, _, h4, _⟩ := applyRun_spec ss dh
    refine ⟨ss, hsub, ?_⟩
    have h0 : (applyTransformsRun dh ss).nErrors = 0 := by rw [hrunss]
    have hled := h4 h0
    rw [hrunss] at hled
    exact hled

/-- C8 witness: the failing transform leaves the concrete handler
untouched, and the succeeding transform appends its name and kwargs. -/
theorem transform_failure_leaves_state_unchanged_witness :
    applyTransformStep dhN tBad = (dhN, some "boom")
    ∧ applyTransformStep dhN tInc
      = ({ dhN with
            data_table := 1
            cuts_table := 0
            t_metadata := ⟨[("tfm_20250101_inc", [("scale", "1")])]⟩ }, none) :=
  ⟨(transform_failure_leaves_state_unchanged dhN tBad []).1 "boom" rfl,
   (transform_failure_leaves_state_unchanged dhN tInc []).2.1 1 0 rfl⟩

/-- C4 counterexample: two File Metadata differing only in `file_name`
(a field other than the interaction-region tag) still compare compatible
under `FileMetadata.__eq__`, so "compatible iff every field except the
interaction-region tag matches" is false: the claimed equivalence fails at
this pair. -/
theorem fm_compat_ignores_more_than_interaction :
    fmEq fmBase { fmBase with file_name := "other_file.root" } = true
    ∧ fmCompatibleSpec fmBase { fmBase with file_name := "other_file.root" } = false
    ∧ ¬ (fmEq fmBase { fmBase with file_name := "other_file.root" } = true
          ↔ fmCompatibleSpec fmBase { fmBase with file_name := "other_file.root" } = true) := by
  decide

/-- C4 (corrected): two File Metadata are compatible iff the twelve
attributes actually compared by `FileMetadata.__eq__` all match — file
type, experiment, detector, flavour, magnetic field, horn position,
target-Z shift, current sign, current, run number and both components of
the MC and reconstruction version pairs; besides the interaction-region
tag, the file name, file format, start/end timestamps, record count and
creation time are also excluded.  In particular a pair differing only in
interaction region is compatible and a pair differing in run number is
not. -/
theorem fm_compat_iff_compared_fields (a b : FileMetadata) (i : EDaikonIntRegion) :
    (fmEq a b = true ↔
      (a.file_type = b.file_type ∧ a.experiment = b.experiment
        ∧ a.detector = b.detector ∧ a.flavour = b.flavour
        ∧ a.mag_field = b.mag_field ∧ a.horn_pos = b.horn_pos
        ∧ a.tgt_z_shift = b.tgt_z_shift ∧ a.current_sign = b.current_sign
        ∧ a.current = b.current ∧ a.run_number = b.run_number
        ∧ a.mc_version.1 = b.mc_version.1 ∧ a.mc_version.2 = b.mc_version.2
        ∧ a.reco_version.1 = b.reco_version.1 ∧ a.reco_version.2 = b.reco_version.2))
    ∧ fmEq { b with interaction := i } b = true
    ∧ (a.run_number ≠ b.run_number → fmEq a b = false) := by
  refine ⟨?_, ?_, ?_⟩
  · simp [fmEq, and_assoc]
  · simp [fmEq]
  · intro h
    simp [fmEq, h]

/-- C4 witness: a pair differing only in interaction region is compatible;
the run-1001 and run-1002 metadata are incompatible. -/
theorem fm_compat_iff_compared_fields_witness :
    fmEq { fmBase with interaction := EDaikonIntRegion.ROCK } fmBase = true
    ∧ fmEq fm1001 fm1002 = false :=
  ⟨(fm_compat_iff_compared_fields fmBase fmBase EDaikonIntRegion.ROCK).2.1,
   (fm_compat_iff_compared_fields fm1001 fm1002 EDaikonIntRegion.ROCK).2.2 (by decide)⟩

/-- C6: ledger provenance-equality holds iff the set of transform names of
one ledger equals the set of transform names of the other (names as the
ledger extracts and records them); the relation is reflexive and
symmetric, insensitive to order ([A, B] equals [B, A]), insensitive to
repeats ([A, A] equals [A]) and insensitive to the recorded parameter
values. -/
theorem tm_eq_is_name_set_equality (a b : TransformMetadata)
    (e1 e2 : String × Params) (n : String) (k1 k2 : Params) :
    (tmEq a b = true ↔ (tmNames a).toFinset = (tmNames b).toFinset)
    ∧ tmEq a a = true
    ∧ tmEq a b = tmEq b a
    ∧ tmEq ⟨[e1, e2]⟩ ⟨[e2, e1]⟩ = true
    ∧ tmEq ⟨[e1, e1]⟩ ⟨[e1]⟩ = true
    ∧ tmEq ⟨[(n, k1)]⟩ ⟨[(n, k2)]⟩ = true := by
  refine ⟨listSetEq_iff_toFinset _ _, ?_, listSetEq_symm _ _, ?_, ?_, ?_⟩
  · rw [tmEq, listSetEq_iff_mem]
    intro s
    exact Iff.rfl
  · rw [tmEq, listSetEq_iff_mem]
    intro s
    simp [tmNames]
    tauto
  · rw [tmEq, listSetEq_iff_mem]
    intro s
    simp [tmNames]
  · rw [tmEq, listSetEq_iff_mem]
    intro s
    simp [tmNames]

/-- C6 witness: two concrete ledgers recording the same transform under
different class-name prefixes, parameters and multiplicities compare
equal, and order does not matter. -/
theorem tm_eq_is_name_set_equality_witness :
    tmEq ⟨[("cut_20240101_alpha", [("x", "1")]), ("cut_20240101_alpha", [])]⟩
        ⟨[("tfm_20230101_ALPHA", [])]⟩ = true :=
  (tm_eq_is_name_set_equality
      ⟨[("cut_20240101_alpha", [("x", "1")]), ("cut_20240101_alpha", [])]⟩
      ⟨[("tfm_20230101_ALPHA", [])]⟩
      ("", []) ("", []) "" [] []).1.mpr (by decide)

/-- C10: ledger provenance-equality compares transforms by extracted
names — the lowercased remainder of the class name after dropping its
first two underscore-separated segments — not by full class names: the
equality test is set equality of the extracted names, transforms whose
class names differ only in the prefix or date segment (cut_20240101_foo
versus tfm_20250101_FOO) are provenance-equal, any two single-entry
ledgers with equal extracted names are provenance-equal whatever the full
names and parameters, and a class name with fewer than three
underscore-separated segments contributes the empty string. -/
theorem tm_eq_uses_extracted_names (a b : TransformMetadata) (n1 n2 : String)
    (p1 p2 : Params) :
    (tmEq a b = true ↔ ∀ s, s ∈ tmNames a ↔ s ∈ tmNames b)
    ∧ extractTransformName "cut_20240101_foo" = "foo"
    ∧ extractTransformName "tfm_20250101_FOO" = "foo"
    ∧ tmEq ⟨[("cut_20240101_foo", p1)]⟩ ⟨[("tfm_20250101_FOO", p2)]⟩ = true
    ∧ (extractTransformName n1 = extractTransformName n2 →
        tmEq ⟨[(n1, p1)]⟩ ⟨[(n2, p2)]⟩ = true)
    ∧ ((pySplit '_' n1).length < 3 → extractTransformName n1 = "") := by
  refine ⟨listSetEq_iff_mem _ _, by decide, by decide, ?_, ?_, ?_⟩
  · rw [tmEq, listSetEq_iff_mem]
    intro s
    simp [tmNames]
    constructor
    · intro h
      rw [h]
      decide
    · intro h
      rw [h]
      decide
  · intro h
    rw [tmEq, listSetEq_iff_mem]
    intro s
    simp [tmNames, h]
  · intro h
    have hd : (pySplit '_' n1).drop 2 = [] :=
      List.drop_eq_nil_of_le (Nat.le_of_lt_succ h)
    rw [extractTransformName, hd]
    rfl

/-- C10 witness: a two-segment class name extracts to the empty string,
and two single-entry ledgers with prefix/date-only differences are
provenance-equal. -/
theorem tm_eq_uses_extracted_names_witness :
    extractTransformName "my_cut" = ""
    ∧ tmEq ⟨[("cut_20240101_foo", [("a", "1")])]⟩ ⟨[("tfm_20250101_FOO", [])]⟩ = true :=
  ⟨(tm_eq_uses_extracted_names ⟨[]⟩ ⟨[]⟩ "my_cut" "" [] []).2.2.2.2.2 (by decide),
   (tm_eq_uses_extracted_names ⟨[]⟩ ⟨[]⟩ "" "" [("a", "1")] []).2.2.2.1⟩

/-- C2 counterexample: with two files whose metadata are identical except
for the run number (1001 vs 1002), ingesting the first into a fresh
handler and the second in a separate call raises no error, and the data
table then holds both files' rows — not only the first file's — because
the compatibility check of `hlp_20250205_from_sntp` compares only against
files loaded in the same call (`f_metadata_list` starts empty on every
call). -/
theorem second_ingestion_call_not_checked :
    (from_sntp srcRun (from_sntp srcRun dhFresh ["FILE_1001"]).1 ["FILE_1002"]).2 = none
    ∧ (from_sntp srcRun (from_sntp srcRun dhFresh ["FILE_1001"]).1 ["FILE_1002"]).1.data_table
        = [10, 11, 20, 21] := by
  decide

/-- C2 (corrected): the provenance-compatibility check applies only among
files of a single ingestion call — each loaded file is compared with the
last successfully loaded file of the same call.  Ingesting the two
run-number-incompatible files in one call raises the aggregate load error
and leaves the data table and metadata list untouched (no merge at all),
while ingesting them in two separate calls raises nothing and leaves both
files' rows and metadata in the handler. -/
theorem metadata_check_only_within_one_call :
    from_sntp srcRun dhFresh ["FILE_1001", "FILE_1002"]
      = ({ dhFresh with cache := ["FILE_1001", "FILE_1002"] },
         some "One or more files failed to load! (See the above exceptions.)")
    ∧ (from_sntp srcRun (from_sntp srcRun dhFresh ["FILE_1001"]).1 ["FILE_1002"]).2 = none
    ∧ (from_sntp srcRun (from_sntp srcRun dhFresh ["FILE_1001"]).1 ["FILE_1002"]).1.f_metadata
        = [fm1001, fm1002]
    ∧ (from_sntp srcRun (from_sntp srcRun dhFresh ["FILE_1001"]).1 ["FILE_1002"]).1.data_table
        = [10, 11, 20, 21] := by
  decide

/-- C3 counterexample: constructing a Data Handler with a duplicated
variable name succeeds — `DataHandler.__init__` stores the variable list
as given and performs no duplicate check. -/
theorem init_accepts_duplicate_vars :
    DataHandler.init Nat ["stp.plane", "stp.plane"] "PandasIO" false
      = Except.ok
          { vars := ["stp.plane", "stp.plane"]
            has_cuts_table := false
            t_metadata := ⟨[]⟩
            f_metadata := []
            data_table := []
            cuts_table := []
            cache := [] } := by
  rfl

/-- C3 (corrected): Data Handler construction performs no duplicate check
on the variable list: for every variable list (duplicates included) and
registered strategy name it succeeds, storing the list unchanged with
empty ledger, metadata list and tables; its only failure is an
unregistered strategy name, which raises the strategy-not-found error. -/
theorem init_no_duplicate_validation (ρ : Type) (vs : List String)
    (mcbt : Bool) ( data_io : String) :
    (pluginRegistry.contains data_io = true →
        DataHandler.init ρ vs data_io mcbt
          = Except.ok
              { vars := vs
                has_cuts_table := mcbt
                t_metadata := ⟨[]⟩
                f_metadata := []
                data_table := []
                cuts_table := []
                cache := [] })
    ∧ (pluginRegistry.contains data_io = false →
        DataHandler.init ρ vs data_io mcbt
          = Except.error ("Data IO strategy '" ++ data_io ++ "' not found in the plugins.")) := by
  constructor
  · intro h
    simp [DataHandler.init, show data_io ∈ pluginRegistry by simpa using h]
  · intro h
    simp [DataHandler.init, show data_io ∉ pluginRegistry by simpa using h]

/-- C3 witness: a duplicated variable list is accepted with the PandasIO
strategy; the unregistered name "NoSuchIO" is rejected with the
strategy-not-found error. -/
theorem init_no_duplicate_validation_witness :
    DataHandler.init Nat ["a", "a", "b"] "PandasIO" true
      = Except.ok
          { vars := ["a", "a", "b"]
            has_cuts_table := true
            t_metadata := ⟨[]⟩
            f_metadata := []
            data_table := []
            cuts_table := []
            cache := [] }
    ∧ DataHandler.init Nat ["a"] "NoSuchIO" false
      = Except.error ("Data IO strategy '" ++ "NoSuchIO" ++ "' not found in the plugins.") :=
  ⟨(init_no_duplicate_validation Nat ["a", "a", "b"] true "PandasIO").1 rfl,
   (init_no_duplicate_validation Nat ["a"] false "NoSuchIO").2 rfl⟩

/-- C5 counterexample: passing the same file identifier twice in the file
list of a single ingestion call raises no error at all — both occurrences
pass the cache filter (each is checked against the cache as it stood at
call entry), so there is no duplicate-in-batch configuration error. -/
theorem duplicate_in_batch_not_rejected :
    _get_non_cache_files [] ["FILE_A", "FILE_A"]
      = (["FILE_A", "FILE_A"], ["FILE_A", "FILE_A"])
    ∧ (from_sntp srcDup dhFresh ["FILE_A", "FILE_A"]).2 = none := by
  decide

/-- C5 (corrected): a file identifier listed twice in one ingestion call
is not rejected: any identifier absent from the strategy cache passes the
cache filter once per occurrence, the file is loaded twice, and its rows
and metadata appear twice in the handler; no error is raised. -/
theorem duplicate_in_batch_loaded_twice (cache : List String) (f : String)
    (h : cache.contains f = false) :
    (_get_non_cache_files cache [f, f]).2 = [f, f]
    ∧ from_sntp srcDup dhFresh ["FILE_A", "FILE_A"]
      = ({ dhFresh with
            cache := ["FILE_A", "FILE_A"]
            data_table := [7, 8, 7, 8]
            f_metadata := [fmBase, fmBase] }, none) := by
  constructor
  · simp only [_get_non_cache_files]
    simp [show f ∉ cache by simpa using h]
  · decide

/-- C5 witness: the duplicate-retention clause at a concrete cache and
file identifier. -/
theorem duplicate_in_batch_loaded_twice_witness :
    (_get_non_cache_files ["OTHER"] ["FILE_X", "FILE_X"]).2 = ["FILE_X", "FILE_X"] :=
  (duplicate_in_batch_loaded_twice ["OTHER"] "FILE_X" rfl).1

/-- C7: ingesting the same file list again in a separate call on the same
handler is a silent no-op — the handler (data table included) is returned
unchanged with no error, whatever record source backs the second call, so
the table keeps exactly one copy of the file's rows; concretely, after
ingesting "FILE_A" twice in two calls the table holds its rows once. -/
theorem reingest_is_silent_noop :
    (∀ (ρ : Type) (source source2 : RecordSource ρ) (dh : DataHandler (List ρ))
        (files : List String),
      from_sntp source2 (from_sntp source dh files).1 files
        = ((from_sntp source dh files).1, none))
    ∧ (from_sntp srcDup dhFresh ["FILE_A"]).1.data_table = [7, 8]
    ∧ (from_sntp srcDup (from_sntp srcDup dhFresh ["FILE_A"]).1 ["FILE_A"]).1.data_table
        = [7, 8] := by
  refine ⟨?_, by decide, by decide⟩
  intro ρ source source2 dh files
  exact ingestCall_reingest _ _ dh files

/-- C9: every ingestion entrypoint (from_sntp, from_udst, from_hdf5)
extends the ingested-file cache with all not-yet-cached identifiers of its
argument list regardless of the loader outcome (the cache is extended
before loading is attempted), so after a call that raises — e.g. the
not-implemented uDST loader — the failed files are cached and a repeat
call with the same identifiers returns silently without consulting any
loader. -/
theorem cache_extended_before_loading (ρ : Type) (source : RecordSource ρ)
    (dh : DataHandler (List ρ)) (files : List String) :
    (from_sntp source dh files).1.cache
        = dh.cache ++ files.filter (fun f => !dh.cache.contains f)
    ∧ (from_udst dh files).1.cache
        = dh.cache ++ files.filter (fun f => !dh.cache.contains f)
    ∧ (from_hdf5 dh files).1.cache
        = dh.cache ++ files.filter (fun f => !dh.cache.contains f)
    ∧ (∀ source2 : RecordSource ρ,
        from_sntp source2 (from_sntp source dh files).1 files
          = ((from_sntp source dh files).1, none))
    ∧ from_udst (from_udst dh files).1 files = ((from_udst dh files).1, none)
    ∧ from_hdf5 (from_hdf5 dh files).1 files = ((from_hdf5 dh files).1, none)
    ∧ (files ≠ [] → dh.cache = [] →
        (from_udst dh files).2 = some "The uDST loader is not implemented yet!") := by
  refine ⟨ingestCall_cache _ dh files, ingestCall_cache _ dh files,
    ingestCall_cache _ dh files, ?_, ingestCall_reingest _ _ dh files,
    ingestCall_reingest _ _ dh files, ?_⟩
  · intro source2
    exact ingestCall_reingest _ _ dh files
  · intro hne hcache
    have hfil : List.filter (fun file => !dh.cache.contains file) files = files := by
      rw [hcache]
      simp
    have hemp : files.isEmpty = false := by
      cases files with
      | nil => exact absurd rfl hne
      | cons a as => rfl
    simp only [from_udst, ingestCall, _get_non_cache_files, hfil, hemp,
      Bool.false_eq_true, if_false, hlp_20250205_from_udst]

/-- C9 witness: the not-implemented uDST loader raises on a fresh handler
while its file is cached by the same call. -/
theorem cache_extended_before_loading_witness :
    (from_udst dhFresh ["FILE_A"]).2 = some "The uDST loader is not implemented yet!" :=
  (cache_extended_before_loading Nat srcDup dhFresh ["FILE_A"]).2.2.2.2.2.2
    (by simp) rfl

end Oscana
